import Mathlib

/-!
Verification of the session and dispatch core of the Playwright Universal MCP
server (`playwright_universal_mcp/server.py`).

The Python module keeps five module-level variables (`CONFIG`,
`playwright_instance`, `browser`, `context`, `pages`, `current_page_id`) and
exposes `configure`, `ensure_browser`, `get_page`, `call_tool`,
`list_resources`, `read_resource` and `cleanup`.  We embed that state as a
`ServerState` record and each function as a pure transition on it.  Delegated
browser-engine calls (engine start, browser launch, navigation, close, stop,
screenshot) are external: their success or failure is an input (`ExtBehavior`)
and each performed call is recorded in an event trace, so that claims about
side effects ("exactly one browser launch", "no further close actions") are
statements about the trace.  Python exceptions are modelled as `PyError`
values returned next to the post-state: a raising Python function leaves its
global mutations in place, so the model returns the mutated state together
with the error.
-/

deriving instance DecidableEq for Except

namespace PUM

/-- The `CONFIG` module dictionary: browser kind, headless flag, debug flag
and the launch-argument list. -/
structure Config where
  browser_type : String
  headless : Bool
  debug : Bool
  browser_args : List String
deriving Repr, DecidableEq

/-- The two mandatory sandbox-disabling flags hard-coded in `server.py`. -/
def mandatoryFlags : List String := ["--no-sandbox", "--disable-setuid-sandbox"]

/-- Initial value of `CONFIG` in `server.py` (module top level, lines 33-38). -/
def defaultConfig : Config :=
  { browser_type := "chromium"
    headless := true
    debug := false
    browser_args := mandatoryFlags }

/-- A Playwright page handle: its identity and the url it currently shows.
The url is the external page object's mutable `.url`, updated by `goto`. -/
structure Page where
  id : Nat
  url : String
deriving Repr, DecidableEq

/-- The module-level mutable state of `server.py`: `playwright_instance`,
`browser`, `context`, `pages`, `current_page_id`.  Handles are natural
numbers drawn from `nextHandle` so that distinct acquisitions are distinct. -/
structure ServerState where
  config : Config
  playwright_instance : Option Nat
  browser : Option Nat
  context : Option Nat
  pages : List (String × Page)
  current_page_id : Option String
  nextHandle : Nat
deriving Repr, DecidableEq

/-- State at process start: nothing launched, empty page registry. -/
def initState : ServerState :=
  { config := defaultConfig
    playwright_instance := none
    browser := none
    context := none
    pages := []
    current_page_id := none
    nextHandle := 0 }

/-- Python exceptions raised by the module.  `notFound` is
`ValueError("Page not found: ...")`, `unknownTool` is
`ValueError("Unknown tool: ...")`, `keyError` is the `KeyError` from
`args["url"]`; the remaining constructors are failures of delegated
browser-engine calls propagating through the module. -/
inductive PyError where
  | notFound (pid : String)
  | unknownTool (name : String)
  | keyError (key : String)
  | engineStartError
  | browserLaunchError
  | gotoError
  | closeError
  | stopError
deriving Repr, DecidableEq

/-- One delegated browser-engine call performed by the module. -/
inductive Event where
  | engineStart
  | browserLaunch (browser_type : String) (headless : Bool) (args : List String)
  | newContext
  | newPage
  | goto (pageId : Nat) (url : String)
  | screenshot (pageId : Nat)
  | browserClose (handle : Nat)
  | engineStop (handle : Nat)
deriving Repr, DecidableEq

/-- Outcome of each kind of delegated call: `true` means the external call
succeeds, `false` means it raises. -/
structure ExtBehavior where
  engineStartOk : Bool
  browserLaunchOk : Bool
  gotoOk : Bool
  closeOk : Bool
  stopOk : Bool
deriving Repr, DecidableEq

/-- Every delegated call succeeds. -/
def behOk : ExtBehavior :=
  { engineStartOk := true
    browserLaunchOk := true
    gotoOk := true
    closeOk := true
    stopOk := true }

/-- Python `d.get(k)` / `k in d` on a string-keyed dict, as an
association-list lookup (keys are unique, first match). -/
def dictGet {α : Type} (k : String) : List (String × α) → Option α
  | [] => none
  | (k2, v) :: rest => if k2 = k then some v else dictGet k rest

/-- Python `d[k] = v`: replace in place if the key exists, else append. -/
def dictSet {α : Type} (k : String) (v : α) : List (String × α) → List (String × α)
  | [] => [(k, v)]
  | (k2, v2) :: rest => if k2 = k then (k, v) :: rest else (k2, v2) :: dictSet k v rest

/-- Python `page_id or current_page_id`: `None` and the empty string are
falsy, so both fall through to the second operand. -/
def pyOrStr (a b : Option String) : Option String :=
  match a with
  | some str => if str = "" then b else some str
  | none => b

/-- `configure` (`server.py` lines 64-81): overwrites browser kind, headless
and debug flags; when `browser_args` is truthy (a non-empty list) the
launch-argument list becomes the two mandatory flags followed by the
user-supplied flags, otherwise it is left as it was. -/
def configure (s : ServerState) (browser_type : String) (headless debug : Bool)
    (browser_args : Option (List String)) : ServerState :=
  let c0 := { s.config with
              browser_type := browser_type
              headless := headless
              debug := debug }
  let c1 := match browser_args with
    | some (a :: rest) => { c0 with browser_args := mandatoryFlags ++ (a :: rest) }
    | _ => c0
  { s with config := c1 }

/-- `ensure_browser` (`server.py` lines 119-137): returns immediately when
`playwright_instance` is already set; otherwise starts the engine, launches a
browser with the configured kind, headless flag and argument list, creates a
context and a page, registers the page under `"default"` and marks it
current.  A failing engine start assigns nothing; a failing browser launch
leaves the already-assigned `playwright_instance` in place (the Python
assignment happened before the raise). -/
def ensure_browser (beh : ExtBehavior) (s : ServerState) :
    ServerState × List Event × Option PyError :=
  if s.playwright_instance.isSome then (s, [], none)
  else if beh.engineStartOk = false then (s, [], some .engineStartError)
  else
    let eng := s.nextHandle
    let s1 := { s with playwright_instance := some eng, nextHandle := eng + 1 }
    if beh.browserLaunchOk = false then
      (s1, [.engineStart], some .browserLaunchError)
    else
      let b := s1.nextHandle
      let s2 := { s1 with browser := some b, nextHandle := b + 1 }
      let c := s2.nextHandle
      let s3 := { s2 with context := some c, nextHandle := c + 1 }
      let pg : Page := { id := s3.nextHandle, url := "about:blank" }
      let s4 := { s3 with
                  pages := dictSet "default" pg s3.pages
                  current_page_id := some "default"
                  nextHandle := s3.nextHandle + 1 }
      (s4, [.engineStart,
            .browserLaunch s.config.browser_type s.config.headless s.config.browser_args,
            .newContext, .newPage], none)

/-- `get_page` (`server.py` lines 140-145): `pid = page_id or
current_page_id`; raises `ValueError("Page not found: ...")` when `pid` is
not a key of `pages` (including `pid = None`, rendered `"None"`), else
returns the page. -/
def get_page (s : ServerState) (page_id : Option String) : Except PyError Page :=
  match pyOrStr page_id s.current_page_id with
  | none => .error (.notFound "None")
  | some pid =>
    match dictGet pid s.pages with
    | none => .error (.notFound pid)
    | some pg => .ok pg

/-- One `types.TextContent` result item. -/
structure TextContent where
  type : String
  text : String
deriving Repr, DecidableEq

/-- `call_tool` (`server.py` lines 167-186): awaits `ensure_browser()` first,
defaults `arguments` to the empty mapping, and for `"navigate"` resolves the
page from `args.get("page_id")`, reads `args["url"]` (a `KeyError` when
absent), awaits `page.goto(url)` — which updates the external page object's
url — and returns one text message.  Any other name raises
`ValueError("Unknown tool: ...")`. -/
def call_tool (beh : ExtBehavior) (s : ServerState) (name : String)
    (arguments : Option (List (String × String))) :
    ServerState × List Event × Except PyError (List TextContent) :=
  match ensure_browser beh s with
  | (s1, evs, some e) => (s1, evs, .error e)
  | (s1, evs, none) =>
    let args := arguments.getD []
    if name = "navigate" then
      match get_page s1 (dictGet "page_id" args) with
      | .error e => (s1, evs, .error e)
      | .ok page =>
        match dictGet "url" args with
        | none => (s1, evs, .error (.keyError "url"))
        | some url =>
          if beh.gotoOk then
            let s2 := { s1 with pages := s1.pages.map (fun pp =>
                if pp.2.id = page.id then (pp.1, { pp.2 with url := url }) else pp) }
            (s2, evs ++ [.goto page.id url],
             .ok [{ type := "text", text := "Navigated to " ++ url }])
          else (s1, evs ++ [.goto page.id url], .error .gotoError)
    else (s1, evs, .error (.unknownTool name))

/-- `cleanup` (`server.py` lines 192-197): closes `browser` if set, then
stops `playwright_instance` if set.  There is no exception handling: a
failing `close` propagates and skips the `stop`; and neither handle, nor the
page registry, is cleared. -/
def cleanup (beh : ExtBehavior) (s : ServerState) :
    ServerState × List Event × Option PyError :=
  match s.browser with
  | some b =>
    if beh.closeOk then
      match s.playwright_instance with
      | some e =>
        if beh.stopOk then (s, [.browserClose b, .engineStop e], none)
        else (s, [.browserClose b, .engineStop e], some .stopError)
      | none => (s, [.browserClose b], none)
    else (s, [.browserClose b], some .closeError)
  | none =>
    match s.playwright_instance with
    | some e =>
      if beh.stopOk then (s, [.engineStop e], none)
      else (s, [.engineStop e], some .stopError)
    | none => (s, [], none)

/-- A resource identifier: `pydantic.AnyUrl` of `"screenshot://<pid>"`, whose
authority (`uri.host`) is `<pid>` for the plain page ids this registry uses. -/
structure Uri where
  scheme : String
  host : String
deriving Repr, DecidableEq

/-- One `types.Resource` descriptor. -/
structure Resource where
  uri : Uri
  name : String
  description : String
  mimeType : String
deriving Repr, DecidableEq

/-- `list_resources` (`server.py` lines 87-98): one descriptor per entry of
`pages`, uri `screenshot://<pid>`, MIME type `image/png`. -/
def list_resources (s : ServerState) : List Resource :=
  s.pages.map (fun pp =>
    { uri := { scheme := "screenshot", host := pp.1 }
      name := "Screenshot: " ++ pp.2.url
      description := "Screenshot of " ++ pp.2.url
      mimeType := "image/png" })

/-- The PNG bytes returned by `page.screenshot()`: opaque, determined by the
page's identity and currently rendered url. -/
structure ScreenshotBytes where
  pageId : Nat
  renderedUrl : String
deriving Repr, DecidableEq

/-- `read_resource` (`server.py` lines 101-107): takes `uri.host` as the page
id, raises `ValueError("Page not found: ...")` when it is not a key of
`pages`, else screenshots that page. -/
def read_resource (s : ServerState) (uri : Uri) :
    List Event × Except PyError ScreenshotBytes :=
  match dictGet uri.host s.pages with
  | none => ([], .error (.notFound uri.host))
  | some p => ([.screenshot p.id], .ok { pageId := p.id, renderedUrl := p.url })

/-- One protocol-facing operation against the module state, for reachability
statements.  `list_resources` and `read_resource` never mutate the state,
`list_resource_templates` is constant; the mutating operations are
`configure`, `call_tool` and `cleanup`. -/
inductive Op where
  | opConfigure (bt : String) (h d : Bool) (ba : Option (List String))
  | opCallTool (beh : ExtBehavior) (name : String) (args : Option (List (String × String)))
  | opListResources
  | opReadResource (u : Uri)
  | opCleanup (beh : ExtBehavior)

/-- Post-state of one operation. -/
def step (s : ServerState) : Op → ServerState
  | .opConfigure bt h d ba => configure s bt h d ba
  | .opCallTool beh name args => (call_tool beh s name args).1
  | .opListResources => s
  | .opReadResource _ => s
  | .opCleanup beh => (cleanup beh s).1

/-- Run a sequence of operations from a state. -/
def run (s : ServerState) (ops : List Op) : ServerState := ops.foldl step s

/-- Argument mapping of a plain `navigate(url)` call. -/
def navArgs (url : String) : Option (List (String × String)) := some [("url", url)]

/-- Run a sequence of `navigate` tool calls, concatenating the event traces. -/
def runNav (beh : ExtBehavior) : ServerState → List String → ServerState × List Event
  | s, [] => (s, [])
  | s, url :: rest =>
    let r := call_tool beh s "navigate" (navArgs url)
    let r2 := runNav beh r.1 rest
    (r2.1, r.2.1 ++ r2.2)

/-- Is this event a browser-process launch? -/
def isLaunch : Event → Bool
  | .browserLaunch _ _ _ => true
  | _ => false

/-- Is this event an engine start? -/
def isEngineStart : Event → Bool
  | .engineStart => true
  | _ => false

/-- Number of browser launches in a trace. -/
def countLaunches (evs : List Event) : Nat := (evs.filter isLaunch).length

/-- Number of engine starts in a trace. -/
def countStarts (evs : List Event) : Nat := (evs.filter isEngineStart).length

/-- The state after a successful first `navigate("https://example.com")`:
engine 0, browser 1, context 2, page 3 registered under `"default"`. -/
def sReady : ServerState :=
  (call_tool behOk initState "navigate" (navArgs "https://example.com")).1

/-- Behavior in which the browser launch raises while the engine start
succeeds. -/
def behLaunchFail : ExtBehavior := { behOk with browserLaunchOk := false }

/-- Behavior in which the engine start itself raises. -/
def behStartFail : ExtBehavior := { behOk with engineStartOk := false }

/-- Behavior in which closing the browser raises during cleanup. -/
def behCloseFail : ExtBehavior := { behOk with closeOk := false }

/-- Shape invariant of the page registry: at most one entry, and its only
possible key is `"default"`. -/
def pagesShape (ps : List (String × Page)) : Prop :=
  ps = [] ∨ ∃ p, ps = [("default", p)]

/-- A plain `navigate("https://example.com")` operation. -/
def navOp : Op := .opCallTool behOk "navigate" (navArgs "https://example.com")

/-- The one resource descriptor exposed by the initialized session. -/
def resReady : Resource :=
  { uri := { scheme := "screenshot", host := "default" }
    name := "Screenshot: https://example.com"
    description := "Screenshot of https://example.com"
    mimeType := "image/png" }

/-- With `playwright_instance` already set, `ensure_browser` is an immediate
no-op: unchanged state, no delegated calls, no error. -/
theorem ensure_browser_already (beh : ExtBehavior) (s : ServerState)
    (h : s.playwright_instance.isSome) : ensure_browser beh s = (s, [], none) := by
  simp [ensure_browser, h]

/-- With `playwright_instance` unset and all delegated calls succeeding,
`ensure_browser` starts the engine, launches the browser with the configured
kind, headless flag and argument list, opens a context and a page, and
registers the page as `"default"`. -/
theorem ensure_browser_first (s : ServerState) (h : s.playwright_instance = none) :
    ensure_browser behOk s =
      ({ s with
         playwright_instance := some s.nextHandle
         browser := some (s.nextHandle + 1)
         context := some (s.nextHandle + 2)
         pages := dictSet "default" { id := s.nextHandle + 3, url := "about:blank" } s.pages
         current_page_id := some "default"
         nextHandle := s.nextHandle + 4 },
       [.engineStart,
        .browserLaunch s.config.browser_type s.config.headless s.config.browser_args,
        .newContext, .newPage], none) := by
  simp [ensure_browser, h, behOk]

/-- `ensure_browser` with an always-succeeding behavior never reports an
error. -/
theorem ensure_browser_behOk_noerr (s : ServerState) :
    (ensure_browser behOk s).2.2 = none := by
  rcases h : s.playwright_instance with _ | e
  · rw [ensure_browser_first s h]
  · rw [ensure_browser_already behOk s (by simp [h])]

/-- The page registry after `ensure_browser` is either unchanged or the old
registry with the `"default"` slot overwritten. -/
theorem ensure_browser_pages (beh : ExtBehavior) (s : ServerState) :
    (ensure_browser beh s).1.pages = s.pages ∨
    ∃ pg, (ensure_browser beh s).1.pages = dictSet "default" pg s.pages := by
  unfold ensure_browser
  repeat' split
  · exact Or.inl rfl
  · exact Or.inl rfl
  · exact Or.inl rfl
  · exact Or.inr ⟨_, rfl⟩

/-- `ensure_browser` either leaves `current_page_id` alone or sets it to
`"default"`. -/
theorem ensure_browser_current (beh : ExtBehavior) (s : ServerState) :
    (ensure_browser beh s).1.current_page_id = s.current_page_id ∨
    (ensure_browser beh s).1.current_page_id = some "default" := by
  unfold ensure_browser
  repeat' split
  · exact Or.inl rfl
  · exact Or.inl rfl
  · exact Or.inl rfl
  · exact Or.inr rfl

/-- The post-state of `call_tool` is the post-state of its `ensure_browser`
call, except that a successful navigation rewrites the url of the target
page in the registry (keys untouched). -/
theorem call_tool_fst (beh : ExtBehavior) (s : ServerState) (n : String)
    (a : Option (List (String × String))) :
    (call_tool beh s n a).1 = (ensure_browser beh s).1 ∨
    ∃ pid url, (call_tool beh s n a).1 =
      { (ensure_browser beh s).1 with
        pages := (ensure_browser beh s).1.pages.map (fun pp =>
          if pp.2.id = pid then (pp.1, { pp.2 with url := url }) else pp) } := by
  unfold call_tool
  rcases hE : ensure_browser beh s with ⟨s1, evs, err⟩
  cases err
  · dsimp only
    repeat' split
    all_goals first
    | exact Or.inl rfl
    | exact Or.inr ⟨_, _, rfl⟩
  · exact Or.inl rfl

/-- `cleanup` never mutates the module state: the handles and the page
registry survive teardown untouched. -/
theorem cleanup_fst (beh : ExtBehavior) (s : ServerState) : (cleanup beh s).1 = s := by
  unfold cleanup
  repeat' split
  all_goals rfl

/-- Claim C1 is false as stated: `navigate({})` from the fresh state does
fail (with the `KeyError` on `"url"`), but the call runs `ensure_browser`
before looking at the arguments, so the first call has a full browser-launch
side effect — afterwards the engine is started, a browser is launched, the
default page is registered, and the trace holds one launch. -/
theorem c1_counterexample :
    (call_tool behOk initState "navigate" (some [])).2.2 = .error (.keyError "url") ∧
    (call_tool behOk initState "navigate" (some [])).1.playwright_instance ≠ none ∧
    (call_tool behOk initState "navigate" (some [])).1.browser ≠ none ∧
    (call_tool behOk initState "navigate" (some [])).1.pages ≠ [] ∧
    countLaunches (call_tool behOk initState "navigate" (some [])).2.1 = 1 := by
  decide

/-- Claim C1, amended: calling `navigate` with an argument mapping that has
no `url` key (and no explicit `page_id`) fails with the `KeyError` on
`"url"`, but because `ensure_browser` runs before argument validation, a
first such call does start the engine and launch one browser: the session is
initialized afterwards. -/
theorem c1_amended (args : List (String × String))
    (hurl : dictGet "url" args = none) (hpid : dictGet "page_id" args = none) :
    (call_tool behOk initState "navigate" (some args)).2.2 = .error (.keyError "url") ∧
    (call_tool behOk initState "navigate" (some args)).1.playwright_instance = some 0 ∧
    (call_tool behOk initState "navigate" (some args)).1.browser = some 1 ∧
    countLaunches (call_tool behOk initState "navigate" (some args)).2.1 = 1 := by
  unfold call_tool
  rw [ensure_browser_first initState rfl]
  dsimp only [Option.getD]
  rw [hpid, hurl]
  decide

/-- Claim C1 witness: the amended statement at the empty argument mapping. -/
theorem c1_witness :
    (call_tool behOk initState "navigate" (some [])).2.2 = .error (.keyError "url") ∧
    (call_tool behOk initState "navigate" (some [])).1.playwright_instance = some 0 ∧
    (call_tool behOk initState "navigate" (some [])).1.browser = some 1 ∧
    countLaunches (call_tool behOk initState "navigate" (some [])).2.1 = 1 :=
  c1_amended [] rfl rfl

/-- Claim C2 is false as stated: when the engine start succeeds but the
browser launch raises, the error is reported, yet the state is NOT left
unchanged — `playwright_instance` stays assigned — and the retry returns
immediately with no fresh engine start or browser launch attempt. -/
theorem c2_counterexample :
    (ensure_browser behLaunchFail initState).2.2 = some .browserLaunchError ∧
    (ensure_browser behLaunchFail initState).1 ≠ initState ∧
    (ensure_browser behLaunchFail initState).1.playwright_instance = some 0 ∧
    ensure_browser behOk (ensure_browser behLaunchFail initState).1 =
      ((ensure_browser behLaunchFail initState).1, [], none) := by
  decide

/-- Claim C2, amended: a failure of the engine start itself leaves the state
unchanged and a retry re-attempts the full startup; but a browser-launch
failure after a successful engine start leaves `playwright_instance`
assigned, so every later `ensure_browser` returns immediately — no retry of
the launch ever happens and the session is stuck half-initialized. -/
theorem c2_amended (s : ServerState) (h : s.playwright_instance = none) :
    ensure_browser behStartFail s = (s, [], some .engineStartError) ∧
    (ensure_browser behOk s).2.1 =
      [.engineStart,
       .browserLaunch s.config.browser_type s.config.headless s.config.browser_args,
       .newContext, .newPage] ∧
    (ensure_browser behLaunchFail s).1.playwright_instance = some s.nextHandle ∧
    (ensure_browser behLaunchFail s).2.1 = [.engineStart] ∧
    (ensure_browser behLaunchFail s).2.2 = some .browserLaunchError ∧
    ensure_browser behOk (ensure_browser behLaunchFail s).1 =
      ((ensure_browser behLaunchFail s).1, [], none) := by
  have h3 : (ensure_browser behLaunchFail s).1.playwright_instance = some s.nextHandle := by
    simp [ensure_browser, h, behLaunchFail, behOk]
  refine ⟨?_, ?_, h3, ?_, ?_, ?_⟩
  · simp [ensure_browser, h, behStartFail, behOk]
  · rw [ensure_browser_first s h]
  · simp [ensure_browser, h, behLaunchFail, behOk]
  · simp [ensure_browser, h, behLaunchFail, behOk]
  · exact ensure_browser_already _ _ (by simp [h3])

/-- Claim C2 witness: the amended statement at the fresh process state. -/
theorem c2_witness :
    ensure_browser behStartFail initState = (initState, [], some .engineStartError) ∧
    (ensure_browser behOk initState).2.1 =
      [.engineStart, .browserLaunch "chromium" true mandatoryFlags,
       .newContext, .newPage] ∧
    (ensure_browser behLaunchFail initState).1.playwright_instance = some 0 ∧
    (ensure_browser behLaunchFail initState).2.1 = [.engineStart] ∧
    (ensure_browser behLaunchFail initState).2.2 = some .browserLaunchError ∧
    ensure_browser behOk (ensure_browser behLaunchFail initState).1 =
      ((ensure_browser behLaunchFail initState).1, [], none) :=
  c2_amended initState rfl

/-- Claim C3 is false as stated: after a successful `cleanup` of the
initialized session, `get_page` — with no id or with `"default"` — does not
fail with `NotFoundError`; the page registry is never cleared, so it still
returns the stale default page. -/
theorem c3_counterexample :
    (cleanup behOk sReady).2.2 = none ∧
    get_page (cleanup behOk sReady).1 none =
      .ok { id := 3, url := "https://example.com" } ∧
    get_page (cleanup behOk sReady).1 (some "default") =
      .ok { id := 3, url := "https://example.com" } := by
  decide

/-- Claim C3, amended: `cleanup` performs the close and stop calls but
leaves the module state untouched, so `get_page` after teardown attempts no
re-initialization and behaves exactly as before teardown — in particular, on
the torn-down initialized session it still returns the stale default page
rather than failing with `NotFoundError`. -/
theorem c3_amended (beh : ExtBehavior) (s : ServerState) (pid : Option String) :
    (cleanup beh s).1 = s ∧
    get_page (cleanup beh s).1 pid = get_page s pid ∧
    get_page (cleanup behOk sReady).1 none =
      .ok { id := 3, url := "https://example.com" } :=
  ⟨cleanup_fst beh s, by rw [cleanup_fst beh s], by decide⟩

/-- Claim C5 is false as stated: a second `cleanup` of the torn-down
initialized session is not a no-op — it again closes the browser and stops
the engine, because the handles were never cleared; and release failures are
not swallowed — a raising browser close propagates out of `cleanup` (and
skips the engine stop). -/
theorem c5_counterexample :
    (cleanup behOk (cleanup behOk sReady).1).2.1 =
      [.browserClose 1, .engineStop 0] ∧
    (cleanup behCloseFail sReady).2.2 = some .closeError ∧
    (cleanup behCloseFail sReady).2.1 = [.browserClose 1] := by
  decide

/-- Claim C5, amended: `cleanup` can be invoked any number of times and
never mutates the module state, so repeated calls behave identically to the
first — which means each call on an initialized session performs the close
and stop delegated calls again rather than becoming a no-op; and a failure
while closing the browser propagates out of `cleanup` as an error, skipping
the engine stop, rather than being swallowed. -/
theorem c5_amended (beh beh2 : ExtBehavior) (s : ServerState) (b : Nat)
    (hb : s.browser = some b) (hc : beh.closeOk = false) :
    (cleanup beh s).1 = s ∧
    cleanup beh2 (cleanup beh s).1 = cleanup beh2 s ∧
    (cleanup beh s).2.2 = some .closeError ∧
    (cleanup beh s).2.1 = [.browserClose b] := by
  refine ⟨cleanup_fst beh s, by rw [cleanup_fst beh s], ?_, ?_⟩ <;>
    simp [cleanup, hb, hc]

/-- Claim C5 witness: the amended statement on the initialized session with
a raising browser close. -/
theorem c5_witness :
    (cleanup behCloseFail sReady).1 = sReady ∧
    cleanup behOk (cleanup behCloseFail sReady).1 = cleanup behOk sReady ∧
    (cleanup behCloseFail sReady).2.2 = some .closeError ∧
    (cleanup behCloseFail sReady).2.1 = [.browserClose 1] :=
  c5_amended behCloseFail behOk sReady 1 (by decide) (by decide)

/-- Claim C6 is false as stated: the empty string is a given `page_id` with
no entry in the registry, yet `get_page` does not fail with `NotFoundError`
— Python's `page_id or current_page_id` treats `""` as falsy, so the call
falls back to the current page and returns it. -/
theorem c6_counterexample :
    dictGet "" sReady.pages = none ∧
    get_page sReady (some "") = .ok { id := 3, url := "https://example.com" } := by
  decide

/-- Claim C6, amended: for a non-empty `page_id`, `get_page` returns the
page registered under exactly that id and fails with `NotFoundError` exactly
when that id has no entry; a `None` or empty-string `page_id` falls back to
`current_page_id`, failing with `NotFoundError` exactly when the id so
resolved (rendered `"None"` when no id was resolvable) has no entry. -/
theorem c6_amended (s : ServerState) (pid : String) (hne : pid ≠ "") :
    (get_page s (some pid) =
      match dictGet pid s.pages with
      | some pg => .ok pg
      | none => .error (.notFound pid)) ∧
    get_page s (some "") = get_page s none ∧
    (get_page s none =
      match s.current_page_id with
      | none => .error (.notFound "None")
      | some c =>
        match dictGet c s.pages with
        | some pg => .ok pg
        | none => .error (.notFound c)) := by
  refine ⟨?_, ?_, ?_⟩
  · cases h : dictGet pid s.pages <;> simp [get_page, pyOrStr, hne, h]
  · simp [get_page, pyOrStr]
  · cases hc : s.current_page_id with
    | none => simp [get_page, pyOrStr, hc]
    | some c => cases h : dictGet c s.pages <;> simp [get_page, pyOrStr, hc, h]

/-- Claim C6 witness: the amended statement on the initialized session at
the id `"default"`. -/
theorem c6_witness :
    (get_page sReady (some "default") =
      match dictGet "default" sReady.pages with
      | some pg => .ok pg
      | none => .error (.notFound "default")) ∧
    get_page sReady (some "") = get_page sReady none ∧
    (get_page sReady none =
      match sReady.current_page_id with
      | none => .error (.notFound "None")
      | some c =>
        match dictGet c sReady.pages with
        | some pg => .ok pg
        | none => .error (.notFound c)) :=
  c6_amended sReady "default" (by decide)

/-- A tool call against an already-initialized session performs no engine
start and no browser launch, and leaves the session initialized. -/
theorem call_tool_already (beh : ExtBehavior) (s : ServerState) (n : String)
    (a : Option (List (String × String))) (h : s.playwright_instance.isSome) :
    countLaunches (call_tool beh s n a).2.1 = 0 ∧
    countStarts (call_tool beh s n a).2.1 = 0 ∧
    (call_tool beh s n a).1.playwright_instance.isSome := by
  unfold call_tool
  rw [ensure_browser_already beh s h]
  dsimp only
  repeat' split
  all_goals simp_all [countLaunches, countStarts, isLaunch, isEngineStart]

/-- The first successful tool call from an uninitialized session performs
exactly one engine start and one browser launch, and initializes the
session. -/
theorem call_tool_first (s : ServerState) (n : String)
    (a : Option (List (String × String))) (h : s.playwright_instance = none) :
    countLaunches (call_tool behOk s n a).2.1 = 1 ∧
    countStarts (call_tool behOk s n a).2.1 = 1 ∧
    (call_tool behOk s n a).1.playwright_instance.isSome := by
  unfold call_tool
  rw [ensure_browser_first s h]
  dsimp only
  repeat' split
  all_goals simp_all [countLaunches, countStarts, isLaunch, isEngineStart]

/-- A sequence of `navigate` calls against an already-initialized session
performs no engine start and no browser launch at all. -/
theorem runNav_already (urls : List String) (s : ServerState)
    (h : s.playwright_instance.isSome) :
    countLaunches (runNav behOk s urls).2 = 0 ∧
    countStarts (runNav behOk s urls).2 = 0 ∧
    (runNav behOk s urls).1.playwright_instance.isSome := by
  induction urls generalizing s with
  | nil => simpa [runNav, countLaunches, countStarts] using h
  | cons u rest ih =>
    have h1 := call_tool_already behOk s "navigate" (navArgs u) h
    have h2 := ih _ h1.2.2
    simp only [runNav, countLaunches, countStarts, List.filter_append,
      List.length_append] at h1 h2 ⊢
    exact ⟨by omega, by omega, h2.2.2⟩

/-- Claim C4, confirmed: for every non-empty sequence of `navigate` calls
with valid URLs from process start, exactly one engine start and exactly one
browser launch occur regardless of call count; and whenever the session is
already initialized, `ensure_browser` returns immediately with the state —
engine handle, browser handle, context, page registry and current page id —
unchanged, no delegated calls and no error. -/
theorem c4 (urls : List String) (hne : urls ≠ []) (s : ServerState)
    (beh : ExtBehavior) (hs : s.playwright_instance.isSome) :
    countLaunches (runNav behOk initState urls).2 = 1 ∧
    countStarts (runNav behOk initState urls).2 = 1 ∧
    ensure_browser beh s = (s, [], none) := by
  refine ⟨?_, ?_, ensure_browser_already beh s hs⟩ <;>
  · cases urls with
    | nil => exact absurd rfl hne
    | cons u rest =>
      have h1 := call_tool_first initState "navigate" (navArgs u) rfl
      have h2 := runNav_already rest _ h1.2.2
      simp only [runNav, countLaunches, countStarts, List.filter_append,
        List.length_append] at h1 h2 ⊢
      omega

/-- Claim C4 witness: two navigations from process start launch one browser,
and `ensure_browser` on the initialized session is an exact no-op. -/
theorem c4_witness :
    countLaunches (runNav behOk initState
      ["https://example.com", "https://example.org"]).2 = 1 ∧
    countStarts (runNav behOk initState
      ["https://example.com", "https://example.org"]).2 = 1 ∧
    ensure_browser behOk sReady = (sReady, [], none) :=
  c4 ["https://example.com", "https://example.org"] (by decide) sReady behOk
    (by decide)

/-- Claim C7, confirmed: for every configuration written before startup, the
launch receives the two mandatory sandbox-disabling flags first, followed by
all user-supplied extra flags in their given order, and uses the configured
browser kind and headless flag. -/
theorem c7 (bt : String) (hl dbg : Bool) (extra : List String) :
    (ensure_browser behOk (configure initState bt hl dbg (some extra))).2.1 =
      [.engineStart, .browserLaunch bt hl (mandatoryFlags ++ extra),
       .newContext, .newPage] := by
  cases extra <;>
    simp [ensure_browser, configure, initState, defaultConfig, behOk, mandatoryFlags]

/-- Claim C8, confirmed: every `navigate` call whose arguments carry a `url`
and whose target page resolves returns exactly one text message whose text
is exactly `"Navigated to <url>"`, and the navigation on the resolved page
is the last delegated call of the request — the result is produced only
after the `goto` has been awaited. -/
theorem c8 (s : ServerState) (args : List (String × String)) (url : String)
    (page : Page) (hurl : dictGet "url" args = some url)
    (hpg : get_page (ensure_browser behOk s).1 (dictGet "page_id" args) = .ok page) :
    (call_tool behOk s "navigate" (some args)).2.2 =
      .ok [{ type := "text", text := "Navigated to " ++ url }] ∧
    (call_tool behOk s "navigate" (some args)).2.1.getLast? =
      some (.goto page.id url) := by
  unfold call_tool
  rcases hE : ensure_browser behOk s with ⟨s1, evs, err⟩
  have herr := ensure_browser_behOk_noerr s
  rw [hE] at herr hpg
  dsimp only at herr hpg
  subst herr
  dsimp only [Option.getD]
  rw [hpg, hurl]
  simp [behOk, List.getLast?_concat]

/-- Claim C8 witness: the first navigation from process start produces
exactly the text `"Navigated to https://example.com"` after the `goto` on
the default page. -/
theorem c8_witness :
    (call_tool behOk initState "navigate"
        (some [("url", "https://example.com")])).2.2 =
      .ok [{ type := "text", text := "Navigated to " ++ "https://example.com" }] ∧
    (call_tool behOk initState "navigate"
        (some [("url", "https://example.com")])).2.1.getLast? =
      some (.goto (Page.id { id := 3, url := "about:blank" }) "https://example.com") :=
  c8 initState [("url", "https://example.com")] "https://example.com"
    { id := 3, url := "about:blank" } (by decide) (by decide)

/-- Claim C9, confirmed: every descriptor returned by `list_resources` has
MIME type `image/png` and uri `screenshot://<pid>` for a page id registered
in the registry — never for an absent id — with exactly one descriptor per
registered page; and `read_resource` takes the page id from the uri's
authority component, fails with `NotFoundError` exactly when that id is not
registered, and otherwise returns that page's screenshot bytes. -/
theorem c9 (s : ServerState) (r : Resource) (u : Uri) (p : Page)
    (hr : r ∈ list_resources s) :
    (r.mimeType = "image/png" ∧ r.uri.scheme = "screenshot" ∧
      ∃ pg, (r.uri.host, pg) ∈ s.pages ∧
        r = { uri := { scheme := "screenshot", host := r.uri.host }
              name := "Screenshot: " ++ pg.url
              description := "Screenshot of " ++ pg.url
              mimeType := "image/png" }) ∧
    (list_resources s).length = s.pages.length ∧
    (dictGet u.host s.pages = none →
      (read_resource s u).2 = .error (.notFound u.host)) ∧
    (dictGet u.host s.pages = some p →
      (read_resource s u).2 = .ok { pageId := p.id, renderedUrl := p.url }) := by
  refine ⟨?_, ?_, ?_, ?_⟩
  · rcases List.mem_map.mp hr with ⟨pp, hpp, hEq⟩
    subst hEq
    exact ⟨rfl, rfl, pp.2, hpp, rfl⟩
  · simp [list_resources]
  · intro h
    simp [read_resource, h]
  · intro h
    simp [read_resource, h]

/-- Claim C9 witness: on the initialized session, the single descriptor is
well-formed, an unregistered id fails with `NotFoundError`, and the
registered id returns the default page's screenshot. -/
theorem c9_witness :
    (resReady.mimeType = "image/png" ∧ resReady.uri.scheme = "screenshot" ∧
      ∃ pg, (resReady.uri.host, pg) ∈ sReady.pages ∧
        resReady = { uri := { scheme := "screenshot", host := resReady.uri.host }
                     name := "Screenshot: " ++ pg.url
                     description := "Screenshot of " ++ pg.url
                     mimeType := "image/png" }) ∧
    (list_resources sReady).length = sReady.pages.length ∧
    (read_resource sReady { scheme := "screenshot", host := "missing" }).2 =
      .error (.notFound "missing") ∧
    (read_resource sReady { scheme := "screenshot", host := "default" }).2 =
      .ok { pageId := 3, renderedUrl := "https://example.com" } := by
  have hA := c9 sReady resReady { scheme := "screenshot", host := "missing" }
    { id := 0, url := "" } (by decide)
  have hB := c9 sReady resReady { scheme := "screenshot", host := "default" }
    { id := 3, url := "https://example.com" } (by decide)
  exact ⟨hA.1, hA.2.1, hA.2.2.1 (by decide), hB.2.2.2 (by decide)⟩

/-- Overwriting the `"default"` slot preserves the registry shape. -/
theorem dictSet_default_shape (pg : Page) (ps : List (String × Page))
    (h : pagesShape ps) : pagesShape (dictSet "default" pg ps) := by
  rcases h with h | ⟨p, h⟩ <;> subst h
  · exact Or.inr ⟨pg, rfl⟩
  · exact Or.inr ⟨pg, by simp [dictSet]⟩

/-- A navigation's url rewrite touches no keys, so it preserves the registry
shape. -/
theorem pagesShape_map (pid : Nat) (url : String) (ps : List (String × Page))
    (h : pagesShape ps) :
    pagesShape (ps.map (fun pp =>
      if pp.2.id = pid then (pp.1, { pp.2 with url := url }) else pp)) := by
  rcases h with h | ⟨p, h⟩ <;> subst h
  · exact Or.inl rfl
  · dsimp only [List.map]
    split
    · exact Or.inr ⟨_, rfl⟩
    · exact Or.inr ⟨_, rfl⟩

/-- Every single operation preserves the registry shape. -/
theorem step_pages (s : ServerState) (op : Op) (h : pagesShape s.pages) :
    pagesShape (step s op).pages := by
  cases op with
  | opConfigure bt hh d ba => exact h
  | opListResources => exact h
  | opReadResource u => exact h
  | opCleanup beh =>
    show pagesShape (cleanup beh s).1.pages
    rw [cleanup_fst]
    exact h
  | opCallTool beh n a =>
    have hpre : pagesShape (ensure_browser beh s).1.pages := by
      rcases ensure_browser_pages beh s with hE | ⟨pg, hE⟩
      · rw [hE]; exact h
      · rw [hE]; exact dictSet_default_shape pg s.pages h
    show pagesShape (call_tool beh s n a).1.pages
    rcases call_tool_fst beh s n a with hC | ⟨pid, url, hC⟩
    · rw [hC]; exact hpre
    · rw [hC]; exact pagesShape_map pid url _ hpre

/-- Every single operation either keeps `current_page_id` or sets it to
`"default"`. -/
theorem step_current (s : ServerState) (op : Op) :
    (step s op).current_page_id = s.current_page_id ∨
    (step s op).current_page_id = some "default" := by
  cases op with
  | opConfigure bt hh d ba => exact Or.inl rfl
  | opListResources => exact Or.inl rfl
  | opReadResource u => exact Or.inl rfl
  | opCleanup beh =>
    show (cleanup beh s).1.current_page_id = _ ∨ _
    rw [cleanup_fst]
    exact Or.inl rfl
  | opCallTool beh n a =>
    have hpre := ensure_browser_current beh s
    show (call_tool beh s n a).1.current_page_id = s.current_page_id ∨
      (call_tool beh s n a).1.current_page_id = some "default"
    rcases call_tool_fst beh s n a with hC | ⟨pid, url, hC⟩ <;> rw [hC] <;>
      exact hpre

/-- Running any operation sequence preserves the registry shape. -/
theorem run_pages (ops : List Op) (s : ServerState) (h : pagesShape s.pages) :
    pagesShape (run s ops).pages := by
  induction ops generalizing s with
  | nil => exact h
  | cons op rest ih => exact ih (step s op) (step_pages s op h)

/-- After any operation sequence, `current_page_id` is either what it was or
`"default"`. -/
theorem run_current (ops : List Op) (s : ServerState) :
    (run s ops).current_page_id = s.current_page_id ∨
    (run s ops).current_page_id = some "default" := by
  induction ops generalizing s with
  | nil => exact Or.inl rfl
  | cons op rest ih =>
    rcases ih (step s op) with h | h
    · rcases step_current s op with h2 | h2
      · exact Or.inl (h.trans h2)
      · exact Or.inr (h.trans h2)
    · exact Or.inr h

/-- Once `current_page_id` is `"default"`, no operation sequence changes
it. -/
theorem run_current_mono (ops : List Op) (s : ServerState)
    (h : s.current_page_id = some "default") :
    (run s ops).current_page_id = some "default" := by
  rcases run_current ops s with h2 | h2
  · exact h2.trans h
  · exact h2

/-- Claim C10, confirmed: in every state reachable from process start by any
sequence of configure, tool, resource and cleanup operations, the page
registry has at most one entry whose only possible key is `"default"`,
`current_page_id` is `None` or `"default"`, and once `current_page_id` is
`"default"` no further operation ever changes it. -/
theorem c10 (ops : List Op) :
    pagesShape (run initState ops).pages ∧
    ((run initState ops).current_page_id = none ∨
      (run initState ops).current_page_id = some "default") ∧
    ∀ more : List Op, (run initState ops).current_page_id = some "default" →
      (run (run initState ops) more).current_page_id = some "default" := by
  refine ⟨run_pages ops initState (Or.inl rfl), ?_, ?_⟩
  · rcases run_current ops initState with h | h
    · exact Or.inl h
    · exact Or.inr h
  · exact fun more h => run_current_mono more _ h

/-- Claim C10 witness: after one navigation the invariant holds, and a
subsequent cleanup leaves `current_page_id` at `"default"`. -/
theorem c10_witness :
    pagesShape (run initState [navOp]).pages ∧
    ((run initState [navOp]).current_page_id = none ∨
      (run initState [navOp]).current_page_id = some "default") ∧
    (run (run initState [navOp]) [Op.opCleanup behOk]).current_page_id =
      some "default" := by
  have h := c10 [navOp]
  exact ⟨h.1, h.2.1, h.2.2 [Op.opCleanup behOk] (by decide)⟩

end PUM
